import Mathlib

/-!
Verification of the talkstudio-web generation-task / credit-ledger subsystem.

Shallow embedding of:
  - `accounts/models.py` (`User.deduct_credits`, `User.add_credits`,
    `CreditTransaction`, account creation via `accounts/serializers.py`),
  - `voices/progress_tracker.py` (`VoiceGenerationTracker`),
  - `tts_engine/views.py` (`generate_speech`, `_generate_in_background`).

Django rows become Lean structures; a table becomes a `List`;
`Model.objects.filter(id=tid).update(...)` becomes a map over the list that
rewrites the matching row; `Model.objects.get(id=tid)` becomes `List.find?`.
Timestamps (`timezone.now()`) are passed in as `Nat` parameters.
-/

namespace TalkStudio

/-- Status choices of `GeneratedAudio.status` (voices/models.py). -/
inductive Status
  | pending
  | processing
  | completed
  | failed
deriving DecidableEq, Repr

/-- One `GeneratedAudio` row (voices/models.py), restricted to the fields the
generation/ledger subsystem reads or writes.  `progress` is a Django
`IntegerField` (so `Int`, not `Nat`); `error_message` is a blank-default
`TextField` (so `String` with default `""`). -/
structure Task where
  id : Nat
  userId : Option Nat
  text : String
  status : Status
  progress : Int
  estimatedTime : Nat
  createdAt : Nat
  startedAt : Option Nat
  completedAt : Option Nat
  errorMessage : String
  audioFile : Option String
  fileSize : Nat
  duration : Nat
  charactersUsed : Nat
  creditsUsed : Nat
deriving DecidableEq, Repr

/-- The custom `User` row (accounts/models.py), restricted to identity and the
integer credit balance. -/
structure User where
  id : Nat
  credits : Int
deriving DecidableEq, Repr

/-- `CreditTransaction.transaction_type` choices (accounts/models.py). -/
inductive TType
  | purchase
  | usage
  | refund
  | bonus
deriving DecidableEq, Repr

/-- One `CreditTransaction` row (accounts/models.py): signed amount, kind and
the balance recorded after the operation. -/
structure CreditTransaction where
  userId : Nat
  amount : Int
  transactionType : TType
  balanceAfter : Int
deriving DecidableEq, Repr

/-- One `Notification` row (accounts/models.py), restricted to recipient and
title; message/link/metadata texts are irrelevant to the claims. -/
structure Notif where
  userId : Nat
  title : String
deriving DecidableEq, Repr

/-- `User.deduct_credits` (accounts/models.py lines 60-66): succeeds and
subtracts iff `credits >= amount`, otherwise returns `False` and leaves the
balance unchanged. -/
def User.deduct_credits (u : User) (amount : Int) : Bool × User :=
  if u.credits ≥ amount then (true, { u with credits := u.credits - amount })
  else (false, u)

/-- `User.add_credits` (accounts/models.py lines 68-71): unconditionally adds. -/
def User.add_credits (u : User) (amount : Int) : User :=
  { u with credits := u.credits + amount }

/-- `GeneratedAudio.objects.get(id=task_id)` on a task table. -/
def findTask (tasks : List Task) (tid : Nat) : Option Task :=
  tasks.find? (fun t => t.id = tid)

/-- `GeneratedAudio.objects.filter(id=task_id).update(...)`: rewrite the rows
whose id matches, leave the rest. -/
def dbUpdate (tasks : List Task) (tid : Nat) (f : Task → Task) : List Task :=
  tasks.map (fun t => if t.id = tid then f t else t)

/-- `get_user_model().objects.get(id=uid)` on a user table. -/
def findUser (users : List User) (uid : Nat) : Option User :=
  users.find? (fun u => u.id = uid)

/-- Save a modified user row back (`user.save()`). -/
def saveUser (users : List User) (u : User) : List User :=
  users.map (fun v => if v.id = u.id then u else v)

/-- `VoiceGenerationTracker.estimate_time` (voices/progress_tracker.py):
`int(30 + text_length * 5.4)`.  `5.4 = 27/5` exactly, and the value is
non-negative, so Python's float truncation is Nat division here. -/
def estimate_time (textLength : Nat) : Nat :=
  30 + 27 * textLength / 5

/-- `VoiceGenerationTracker.create_task` (voices/progress_tracker.py
lines 13-21): inserts a new `pending` row with `characters_used` and
`credits_used` both `len(text)`; `progress` takes the model default 0. -/
def create_task (tasks : List Task) (userId : Option Nat) (text : String)
    (newId now : Nat) : List Task × Task :=
  let t : Task :=
    { id := newId
      userId := userId
      text := text
      status := .pending
      progress := 0
      estimatedTime := estimate_time text.length
      createdAt := now
      startedAt := none
      completedAt := none
      errorMessage := ""
      audioFile := none
      fileSize := 0
      duration := 0
      charactersUsed := text.length
      creditsUsed := text.length }
  (tasks ++ [t], t)

/-- `VoiceGenerationTracker.start_processing` (voices/progress_tracker.py
lines 23-27): the filter is on `id` only — there is no `status='pending'`
condition — so the row is set to `processing` whatever its current status. -/
def start_processing (tasks : List Task) (tid now : Nat) : List Task :=
  dbUpdate tasks tid (fun t =>
    { t with status := .processing, startedAt := some now, progress := 10 })

/-- `VoiceGenerationTracker.update_progress` (voices/progress_tracker.py
lines 29-31): stores `min(progress, 99)`; no status condition, no lower
clamp. -/
def update_progress (tasks : List Task) (tid : Nat) (progress : Int) :
    List Task :=
  dbUpdate tasks tid (fun t => { t with progress := min progress 99 })

/-- `VoiceGenerationTracker.mark_completed` (voices/progress_tracker.py
lines 33-38): unconditional update to `completed` with `progress=100`. -/
def mark_completed (tasks : List Task) (tid : Nat) (audioFile : String)
    (fileSize duration now : Nat) : List Task :=
  dbUpdate tasks tid (fun t =>
    { t with status := .completed, progress := 100, completedAt := some now,
             audioFile := some audioFile, fileSize := fileSize,
             duration := duration })

/-- `VoiceGenerationTracker.mark_failed` (voices/progress_tracker.py
lines 40-44): unconditional update to `failed`, storing the error text. -/
def mark_failed (tasks : List Task) (tid : Nat) (error : String) (now : Nat) :
    List Task :=
  dbUpdate tasks tid (fun t =>
    { t with status := .failed, completedAt := some now,
             errorMessage := error })

/-- `VoiceGenerationTracker.get_queue_position` (voices/progress_tracker.py
lines 46-67).  Missing row (the bare `except`) returns 0; `processing`,
`completed` and `failed` return 0; a `pending` task counts the pending rows
created strictly before it plus all rows currently `processing`. -/
def get_queue_position (tasks : List Task) (tid : Nat) : Nat :=
  match findTask tasks tid with
  | none => 0
  | some task =>
    if task.status = .processing ∨ task.status = .completed ∨
        task.status = .failed then 0
    else
      (tasks.filter (fun t =>
        t.status = .pending ∧ t.createdAt < task.createdAt)).length
      + (tasks.filter (fun t => t.status = .processing)).length

/-- The fields of `VoiceGenerationTracker.get_status`'s response that the
claims mention (elapsed/remaining wall-clock fields are omitted). -/
structure StatusResponse where
  success : Bool
  status : Option Status
  progress : Option Int
  queuePosition : Nat
  estimatedWait : Nat
deriving DecidableEq, Repr

/-- `VoiceGenerationTracker.get_status` (voices/progress_tracker.py
lines 69-96): not-found gives `success=False`; otherwise status and progress
are returned as stored, queue position from `get_queue_position`, and
`estimated_wait = queue_position * 30`. -/
def get_status (tasks : List Task) (tid : Nat) : StatusResponse :=
  match findTask tasks tid with
  | none =>
    { success := false, status := none, progress := none,
      queuePosition := 0, estimatedWait := 0 }
  | some task =>
    let qp := get_queue_position tasks tid
    { success := true
      status := some task.status
      progress := some task.progress
      queuePosition := qp
      estimatedWait := qp * 30 }

/-- Whole-database state threaded through the views: task table, user table,
the credit ledger (append-only `CreditTransaction` rows) and notifications. -/
structure DB where
  tasks : List Task
  users : List User
  transactions : List CreditTransaction
  notifications : List Notif
deriving DecidableEq, Repr

/-- Result dict of `tts_api_service.generate` as consumed by
`_generate_in_background` (tts_engine/views.py lines 86, 145): a `success`
flag; on success `file_size` and `duration`; on failure an optional `error`
string (`result.get('error', 'Unknown error')`).  Exceptions raised by the
call land in the same `mark_failed` path with `str(e)` as the error text, so
they are modelled by the `err` constructor too. -/
inductive SynthResult
  | ok (fileSize duration : Nat)
  | err (error : Option String)
deriving DecidableEq, Repr

/-- Modelled from the spec: the Django settings module (project settings are
not under src/) defines `MAX_TEXT_LENGTH` and `CREDITS_PER_CHARACTER`, read
by tts_engine/views.py, and the TTS API service availability flag
(`tts_service.is_available`).  The spec calls the rate configurable, so both
are left as parameters. -/
structure Settings where
  MAX_TEXT_LENGTH : Nat
  CREDITS_PER_CHARACTER : Nat
  serviceAvailable : Bool
deriving DecidableEq, Repr

/-- Outcomes of the `generate_speech` endpoint (tts_engine/views.py
lines 196-300), in the order the code can produce them. -/
inductive SubmitResult
  | serviceUnavailable
  | textRequired
  | textTooLong
  | insufficientCredits
  | referenceAudioRequired
  | ok (taskId creditsNeeded : Nat)
deriving DecidableEq, Repr

/-- The guard `user and user.credits < credits` of `generate_speech`
(tts_engine/views.py line 229): anonymous submissions short-circuit to
false. -/
def insufficientFor (user : Option User) (credits : Nat) : Prop :=
  match user with
  | some u => u.credits < (credits : Int)
  | none => False

instance (user : Option User) (credits : Nat) :
    Decidable (insufficientFor user credits) :=
  match user with
  | some u => inferInstanceAs (Decidable (u.credits < (credits : Int)))
  | none => inferInstanceAs (Decidable False)

/-- `generate_speech` (tts_engine/views.py lines 196-300).  Checks, in source
order: service availability; `text` non-empty (the input is already
`.strip()`ed); `len(text) > MAX_TEXT_LENGTH`; then
`credits = len(text) * CREDITS_PER_CHARACTER` and, only for an authenticated
user, `user.credits < credits`; then presence of the uploaded
`reference_audio`; finally `create_task` inserts the `pending` row and work
is handed to the thread pool.  Note the credit check precedes the
reference-audio check. -/
def generate_speech (s : Settings) (db : DB) (user : Option User)
    (text : String) (hasRefAudio : Bool) (newId now : Nat) :
    SubmitResult × DB :=
  if s.serviceAvailable = false then (.serviceUnavailable, db)
  else if text = "" then (.textRequired, db)
  else if text.length > s.MAX_TEXT_LENGTH then (.textTooLong, db)
  else
    let credits := text.length * s.CREDITS_PER_CHARACTER
    if insufficientFor user credits then (.insufficientCredits, db)
    else if hasRefAudio = false then (.referenceAudioRequired, db)
    else
      let (tasks, task) :=
        create_task db.tasks (user.map User.id) text newId now
      (.ok task.id credits, { db with tasks := tasks })

/-- `str(e)` for Django's `User.DoesNotExist` raised by
`get_user_model().objects.get(id=user_id)` on a missing row. -/
def userDoesNotExistMsg : String := "User matching query does not exist."

/-- `_generate_in_background` (tts_engine/views.py lines 43-192), the
generation worker.  It: claims via `start_processing`, bumps progress to 20,
invokes the synthesis service (here: the `result` parameter), bumps progress
to 80, then on success stores the artifact via `mark_completed` and — when
`user_id` is set — fetches the owner with an *unguarded*
`objects.get(id=user_id)`, calls `user.deduct_credits(credits)` (return
value ignored), appends one `usage` `CreditTransaction` of amount `-credits`
with `balance_after` the post-deduction balance, and creates two
notifications plus a low-balance warning when the balance fell below 100.
On a failure result it calls `mark_failed` with `result.get('error',
'Unknown error')` and notifies the user; no debit, no ledger row.

When the owner row is missing, `User.DoesNotExist` escapes to the function's
outer `except Exception as e:` handler, which runs
`mark_failed(task_id, str(e))` — overwriting the task's status and error
text with the DoesNotExist message (flipping a just-completed task to
`failed`) — and whose own guarded user lookup fails again, so no
notification is created.  The handler's `timezone.now()` is modelled by the
same `endNow` parameter; no claim reads `completed_at`. -/
def generate_in_background (db : DB) (taskId : Nat) (result : SynthResult)
    (credits : Nat) (userId : Option Nat) (savedPath : String)
    (startNow endNow : Nat) : DB :=
  let tasks1 := start_processing db.tasks taskId startNow
  let tasks2 := update_progress tasks1 taskId 20
  let tasks3 := update_progress tasks2 taskId 80
  match result with
  | .ok fileSize duration =>
    let tasks4 := mark_completed tasks3 taskId savedPath fileSize duration endNow
    match userId with
    | none => { db with tasks := tasks4 }
    | some uid =>
      match findUser db.users uid with
      | none =>
        { db with tasks := mark_failed tasks4 taskId userDoesNotExistMsg endNow }
      | some u =>
        let u' := (u.deduct_credits (credits : Int)).2
        let tx : CreditTransaction :=
          { userId := uid, amount := -(credits : Int),
            transactionType := .usage, balanceAfter := u'.credits }
        let notifs :=
          [⟨uid, "Voice Generation Complete"⟩, ⟨uid, "Credits Deducted"⟩]
          ++ (if u'.credits < 100 then [⟨uid, "Low Credits Warning"⟩] else [])
        { db with tasks := tasks4
                  users := saveUser db.users u'
                  transactions := db.transactions ++ [tx]
                  notifications := db.notifications ++ notifs }
  | .err e =>
    let tasks4 := mark_failed tasks3 taskId (e.getD "Unknown error") endNow
    match userId with
    | none => { db with tasks := tasks4 }
    | some uid =>
      match findUser db.users uid with
      | none =>
        { db with tasks := mark_failed tasks4 taskId userDoesNotExistMsg endNow }
      | some _ =>
        { db with tasks := tasks4
                  notifications :=
                    db.notifications ++ [⟨uid, "Voice Generation Failed"⟩] }

/-- Account creation (accounts/serializers.py `UserRegistrationSerializer.create`
lines 34-44): the new user's balance is set to the platform's
`free_trial_credits`; no `CreditTransaction` row is written. -/
def createAccount (freeTrialCredits : Int) (newId : Nat) :
    User × List CreditTransaction :=
  ({ id := newId, credits := freeTrialCredits }, [])

/-- Sum of the signed amounts of one account's ledger rows. -/
def ledgerSum (txs : List CreditTransaction) (uid : Nat) : Int :=
  ((txs.filter (fun tx => tx.userId = uid)).map
    (fun tx => tx.amount)).sum

/-- Number of `usage` rows for one account. -/
def usageCount (txs : List CreditTransaction) (uid : Nat) : Nat :=
  (txs.filter (fun tx =>
    tx.transactionType = .usage ∧ tx.userId = uid)).length

/-- An abstract credit/debit operation on one account, as the spec's ledger
contract words it; interpreted by the code's `add_credits` / `deduct_credits`. -/
inductive CreditOp
  | credit (amount : Int)
  | debit (amount : Int)
deriving DecidableEq, Repr

/-- One step of the balance under a `CreditOp` (a failed debit leaves the
balance unchanged, per `deduct_credits`). -/
def applyCreditOp (u : User) : CreditOp → User
  | .credit a => u.add_credits a
  | .debit a => (u.deduct_credits a).2

/-- A whole sequence of credit/debit operations. -/
def applyCreditOps (u : User) (ops : List CreditOp) : User :=
  ops.foldl applyCreditOp u

/-- A balance change that the code pairs with a ledger row: the admin
credit path (accounts/views.py lines 724-734: `add_credits` plus a `bonus`
row) and the completion debit path (tts_engine/views.py lines 95-100:
`deduct_credits` with its return value ignored, plus a `usage` row of the
negated amount and `balance_after` the post-call balance). -/
inductive LedgerOp
  | adminAdd (amount : Int)
  | usageDebit (amount : Int)
deriving DecidableEq, Repr

/-- One paired step on (balance, ledger).  Note the `usage` row is written
even when `deduct_credits` failed, exactly as in the source. -/
def applyLedgerOp (st : User × List CreditTransaction) (op : LedgerOp) :
    User × List CreditTransaction :=
  match op with
  | .adminAdd a =>
    let u' := st.1.add_credits a
    (u', st.2 ++ [{ userId := st.1.id, amount := a,
                    transactionType := .bonus, balanceAfter := u'.credits }])
  | .usageDebit a =>
    let u' := (st.1.deduct_credits a).2
    (u', st.2 ++ [{ userId := st.1.id, amount := -a,
                    transactionType := .usage, balanceAfter := u'.credits }])

/-- A sequence of paired ledger operations. -/
def applyLedgerOps (st : User × List CreditTransaction)
    (ops : List LedgerOp) : User × List CreditTransaction :=
  ops.foldl applyLedgerOp st

/-- Every `usageDebit` in the sequence succeeds (the amount is covered by the
balance at the moment it runs). -/
def debitsCovered (st : User × List CreditTransaction) :
    List LedgerOp → Prop
  | [] => True
  | op :: rest =>
    (match op with
     | .usageDebit a => a ≤ st.1.credits
     | .adminAdd _ => True) ∧ debitsCovered (applyLedgerOp st op) rest

instance (st : User × List CreditTransaction) (ops : List LedgerOp) :
    Decidable (debitsCovered st ops) := by
  induction ops generalizing st with
  | nil => exact isTrue trivial
  | cons op rest ih =>
    cases op with
    | adminAdd a =>
      exact decidable_of_iff
        (True ∧ debitsCovered (applyLedgerOp st (.adminAdd a)) rest)
        Iff.rfl
    | usageDebit a =>
      exact decidable_of_iff
        (a ≤ st.1.credits ∧
          debitsCovered (applyLedgerOp st (.usageDebit a)) rest)
        Iff.rfl

/-- One `VoiceGenerationTracker` mutation, for stating invariants over
arbitrary interleavings of tracker calls. -/
inductive TrackerOp
  | create (userId : Option Nat) (text : String) (newId now : Nat)
  | claim (tid now : Nat)
  | progress (tid : Nat) (percent : Int)
  | complete (tid : Nat) (audioFile : String) (fileSize duration now : Nat)
  | fail (tid : Nat) (error : String) (now : Nat)
deriving DecidableEq, Repr

/-- Interpretation of one tracker call on the task table. -/
def applyTrackerOp (tasks : List Task) : TrackerOp → List Task
  | .create userId text newId now => (create_task tasks userId text newId now).1
  | .claim tid now => start_processing tasks tid now
  | .progress tid percent => update_progress tasks tid percent
  | .complete tid audioFile fileSize duration now =>
      mark_completed tasks tid audioFile fileSize duration now
  | .fail tid error now => mark_failed tasks tid error now

/-- The observable non-interference property behind claim C6: a row that is
`processing` never shows progress 100 (in fact never above 99). -/
def ProcessingCapped (tasks : List Task) : Prop :=
  ∀ t ∈ tasks, t.status = .processing → t.progress ≤ 99

instance (tasks : List Task) : Decidable (ProcessingCapped tasks) :=
  List.decidableBAll _ tasks

/- ### Helper lemmas -/

theorem findTask_dbUpdate (tasks : List Task) (tid : Nat) (f : Task → Task)
    (hf : ∀ t, (f t).id = t.id) :
    findTask (dbUpdate tasks tid f) tid = (findTask tasks tid).map f := by
  induction tasks with
  | nil => rfl
  | cons t ts ih =>
    have hd : dbUpdate (t :: ts) tid f
        = (if t.id = tid then f t else t) :: dbUpdate ts tid f := rfl
    rw [hd]
    by_cases h : t.id = tid
    · rw [if_pos h]
      simp [findTask, List.find?_cons, hf t, h]
    · rw [if_neg h]
      unfold findTask
      rw [List.find?_cons, List.find?_cons]
      rw [decide_eq_false h]
      exact ih

theorem findTask_dbUpdate_ne (tasks : List Task) (tid tid' : Nat)
    (f : Task → Task) (hf : ∀ t, (f t).id = t.id) (hne : tid' ≠ tid) :
    findTask (dbUpdate tasks tid f) tid' = findTask tasks tid' := by
  induction tasks with
  | nil => rfl
  | cons t ts ih =>
    have hd : dbUpdate (t :: ts) tid f
        = (if t.id = tid then f t else t) :: dbUpdate ts tid f := rfl
    rw [hd]
    by_cases h : t.id = tid
    · rw [if_pos h]
      unfold findTask
      rw [List.find?_cons, List.find?_cons]
      have hft : ¬((f t).id = tid') := by
        rw [hf t, h]; exact fun he => hne he.symm
      have ht : ¬(t.id = tid') := by
        rw [h]; exact fun he => hne he.symm
      rw [decide_eq_false hft, decide_eq_false ht]
      exact ih
    · rw [if_neg h]
      unfold findTask
      rw [List.find?_cons, List.find?_cons]
      by_cases h2 : t.id = tid'
      · rw [decide_eq_true h2]
      · rw [decide_eq_false h2]
        exact ih

theorem status_map_dbUpdate (tasks : List Task) (tid : Nat) (f : Task → Task)
    (hs : ∀ t, (f t).status = t.status) :
    (dbUpdate tasks tid f).map Task.status = tasks.map Task.status := by
  unfold dbUpdate
  rw [List.map_map]
  apply List.map_congr_left
  intro t _
  by_cases h : t.id = tid <;> simp [h, hs t]

theorem findTask_start_processing (tasks : List Task) (tid now : Nat)
    (t : Task) (h : findTask tasks tid = some t) :
    findTask (start_processing tasks tid now) tid
      = some { t with status := .processing, startedAt := some now,
                      progress := 10 } := by
  unfold start_processing
  rw [findTask_dbUpdate tasks tid
    (fun t => { t with status := .processing, startedAt := some now,
                       progress := 10 })
    (fun _ => rfl), h]
  rfl

theorem findTask_update_progress (tasks : List Task) (tid : Nat) (p : Int)
    (t : Task) (h : findTask tasks tid = some t) :
    findTask (update_progress tasks tid p) tid
      = some { t with progress := min p 99 } := by
  unfold update_progress
  rw [findTask_dbUpdate tasks tid
    (fun t => { t with progress := min p 99 }) (fun _ => rfl), h]
  rfl

theorem findTask_mark_completed (tasks : List Task) (tid : Nat) (a : String)
    (fs d now : Nat) (t : Task) (h : findTask tasks tid = some t) :
    findTask (mark_completed tasks tid a fs d now) tid
      = some { t with status := .completed, progress := 100,
                      completedAt := some now, audioFile := some a,
                      fileSize := fs, duration := d } := by
  unfold mark_completed
  rw [findTask_dbUpdate tasks tid
    (fun t => { t with status := .completed, progress := 100,
                       completedAt := some now, audioFile := some a,
                       fileSize := fs, duration := d })
    (fun _ => rfl), h]
  rfl

theorem findTask_mark_failed (tasks : List Task) (tid : Nat) (e : String)
    (now : Nat) (t : Task) (h : findTask tasks tid = some t) :
    findTask (mark_failed tasks tid e now) tid
      = some { t with status := .failed, completedAt := some now,
                      errorMessage := e } := by
  unfold mark_failed
  rw [findTask_dbUpdate tasks tid
    (fun t => { t with status := .failed, completedAt := some now,
                       errorMessage := e })
    (fun _ => rfl), h]
  rfl

/-- Test fixture: a task row with the given id, owner, text, status, progress
and creation time, remaining fields as `create_task` defaults them. -/
def mkTask (id : Nat) (userId : Option Nat) (text : String) (status : Status)
    (progress : Int) (createdAt : Nat) : Task :=
  { id := id
    userId := userId
    text := text
    status := status
    progress := progress
    estimatedTime := estimate_time text.length
    createdAt := createdAt
    startedAt := none
    completedAt := none
    errorMessage := ""
    audioFile := none
    fileSize := 0
    duration := 0
    charactersUsed := text.length
    creditsUsed := text.length }

/-- The signed amount carried by a `CreditOp`. -/
def creditOpAmount : CreditOp → Int
  | .credit a => a
  | .debit a => a

theorem applyCreditOp_nonneg (u : User) (op : CreditOp)
    (h0 : 0 ≤ u.credits) (ha : 0 ≤ creditOpAmount op) :
    0 ≤ (applyCreditOp u op).credits := by
  cases op with
  | credit a =>
    simpa [applyCreditOp, User.add_credits] using add_nonneg h0 ha
  | debit a =>
    simp only [applyCreditOp, User.deduct_credits]
    split
    · next h => simpa using sub_nonneg.mpr h
    · exact h0

theorem applyCreditOps_take_nonneg (u : User) (ops : List CreditOp)
    (h0 : 0 ≤ u.credits) (hnn : ∀ op ∈ ops, 0 ≤ creditOpAmount op) :
    ∀ i, 0 ≤ (applyCreditOps u (ops.take i)).credits := by
  induction ops generalizing u with
  | nil =>
    intro i
    simpa [applyCreditOps] using h0
  | cons op rest ih =>
    intro i
    cases i with
    | zero => simpa [applyCreditOps] using h0
    | succ j =>
      have hstep := applyCreditOp_nonneg u op h0 (hnn op (by simp))
      have := ih (applyCreditOp u op) hstep
        (fun o ho => hnn o (by simp [ho])) j
      simpa [applyCreditOps, List.take_succ_cons] using this

/-- C2 counterexample: the claim quantifies over *any integer amounts*, but
`add_credits` adds unconditionally, so a single credit operation with a
negative amount drives the default starting balance of 1000 to -1000: the
balance is not `>= 0` after every operation. -/
theorem C2_counterexample :
    ¬ (0 ≤ (applyCreditOps { id := 1, credits := 1000 }
              [CreditOp.credit (-2000)]).credits) := by
  decide

/-- C2 (amended): restricted to non-negative amounts, the balance stays
non-negative after every prefix of the operation sequence (a debit exceeding
the balance is refused by `deduct_credits` and leaves the balance unchanged);
and in general any `deduct_credits` call whose amount exceeds the current
balance returns `False` with the user row unmodified. -/
theorem C2_no_negative_balance (u : User) (ops : List CreditOp)
    (h0 : 0 ≤ u.credits) (hnn : ∀ op ∈ ops, 0 ≤ creditOpAmount op) :
    (∀ i, 0 ≤ (applyCreditOps u (ops.take i)).credits)
    ∧ (∀ (v : User) (a : Int), v.credits < a →
        v.deduct_credits a = (false, v)) := by
  refine ⟨applyCreditOps_take_nonneg u ops h0 hnn, ?_⟩
  intro v a hlt
  unfold User.deduct_credits
  rw [if_neg (not_le.mpr hlt)]

/-- C2 witness: the amended theorem applied at a concrete account and
operation sequence. -/
theorem C2_no_negative_balance_witness :
    (∀ i, 0 ≤ (applyCreditOps { id := 1, credits := 5 }
        ([CreditOp.credit 3, CreditOp.debit 4, CreditOp.debit 100].take i)).credits)
    ∧ (∀ (v : User) (a : Int), v.credits < a →
        v.deduct_credits a = (false, v)) :=
  C2_no_negative_balance { id := 1, credits := 5 }
    [CreditOp.credit 3, CreditOp.debit 4, CreditOp.debit 100]
    (by decide) (by decide)

/-- C4 counterexample: `start_processing` filters on the id only, so on a
task that is already `completed` it is not a failing no-op: it rewrites the
row back to `processing`. -/
theorem C4_counterexample :
    (findTask (start_processing [mkTask 1 none "hi" .completed 100 0] 1 5)
        1).map Task.status = some .processing
    ∧ start_processing [mkTask 1 none "hi" .completed 100 0] 1 5
        ≠ [mkTask 1 none "hi" .completed 100 0] := by
  exact ⟨rfl, by decide⟩

/-- C4 (amended): `start_processing` unconditionally sets the row to
`processing`, records the start timestamp and sets progress to 10, whatever
the current status — there is no `pending`-only guard and no failure path, so
of two claim calls on the same pending task both apply (the second merely
overwrites the first's timestamp), rather than exactly one succeeding. -/
theorem C4_claim_unconditional (tasks : List Task) (tid now : Nat) (t : Task)
    (h : findTask tasks tid = some t) :
    findTask (start_processing tasks tid now) tid
      = some { t with status := .processing, startedAt := some now,
                      progress := 10 } :=
  findTask_start_processing tasks tid now t h

/-- C4 witness: the amended theorem applied to a concrete pending task. -/
theorem C4_claim_unconditional_witness :
    findTask (start_processing [mkTask 3 none "ab" .pending 0 0] 3 7) 3
      = some { mkTask 3 none "ab" .pending 0 0 with
               status := .processing, startedAt := some 7, progress := 10 } :=
  C4_claim_unconditional [mkTask 3 none "ab" .pending 0 0] 3 7
    (mkTask 3 none "ab" .pending 0 0) (by decide)

/-- C5 counterexample: terminal states are not immutable — `mark_failed` on a
`completed` task rewrites its stored status to `failed`. -/
theorem C5_counterexample :
    (findTask (mark_failed [mkTask 1 none "hi" .completed 100 0] 1 "boom" 9)
        1).map Task.status = some .failed
    ∧ Status.failed ≠ Status.completed := by
  exact ⟨rfl, by decide⟩

/-- C5 (amended): `update_progress` indeed never changes any stored status,
but `start_processing`, `mark_completed` and `mark_failed` overwrite the
target row's status unconditionally — from terminal states included — to
`processing`, `completed` and `failed` respectively. -/
theorem C5_terminal_not_immutable (tasks : List Task) (tid now : Nat)
    (p : Int) (e a : String) (fs d : Nat) (t : Task)
    (h : findTask tasks tid = some t) :
    ((update_progress tasks tid p).map Task.status = tasks.map Task.status)
    ∧ (findTask (start_processing tasks tid now) tid).map Task.status
        = some .processing
    ∧ (findTask (mark_completed tasks tid a fs d now) tid).map Task.status
        = some .completed
    ∧ (findTask (mark_failed tasks tid e now) tid).map Task.status
        = some .failed := by
  refine ⟨?_, ?_, ?_, ?_⟩
  · exact status_map_dbUpdate tasks tid _ (fun _ => rfl)
  · rw [findTask_start_processing tasks tid now t h]; rfl
  · rw [findTask_mark_completed tasks tid a fs d now t h]; rfl
  · rw [findTask_mark_failed tasks tid e now t h]; rfl

/-- C5 witness: the amended theorem applied to a concrete completed task. -/
theorem C5_terminal_not_immutable_witness :
    ((update_progress [mkTask 1 none "hi" .completed 100 0] 1 55).map
        Task.status = [mkTask 1 none "hi" .completed 100 0].map Task.status)
    ∧ (findTask (start_processing [mkTask 1 none "hi" .completed 100 0] 1 9)
        1).map Task.status = some .processing
    ∧ (findTask (mark_completed [mkTask 1 none "hi" .completed 100 0] 1
        "f.wav" 4 2 9) 1).map Task.status = some .completed
    ∧ (findTask (mark_failed [mkTask 1 none "hi" .completed 100 0] 1 "e" 9)
        1).map Task.status = some .failed :=
  C5_terminal_not_immutable [mkTask 1 none "hi" .completed 100 0] 1 9 55
    "e" "f.wav" 4 2 (mkTask 1 none "hi" .completed 100 0) (by decide)

theorem processingCapped_dbUpdate (tasks : List Task) (tid : Nat)
    (f : Task → Task)
    (hf : ∀ t, (f t).status = .processing → (f t).progress ≤ 99)
    (h : ProcessingCapped tasks) : ProcessingCapped (dbUpdate tasks tid f) := by
  intro t ht hs
  rw [dbUpdate, List.mem_map] at ht
  obtain ⟨t0, ht0, rfl⟩ := ht
  by_cases he : t0.id = tid
  · rw [if_pos he] at hs ⊢
    exact hf t0 hs
  · rw [if_neg he] at hs ⊢
    exact h t0 ht0 hs

theorem processingCapped_step (tasks : List Task) (op : TrackerOp)
    (h : ProcessingCapped tasks) :
    ProcessingCapped (applyTrackerOp tasks op) := by
  cases op with
  | create userId text newId now =>
    intro t ht hs
    rw [applyTrackerOp] at ht
    simp only [create_task, List.mem_append, List.mem_singleton] at ht
    rcases ht with ht | ht
    · exact h t ht hs
    · subst ht
      simp at hs
  | claim tid now =>
    exact processingCapped_dbUpdate tasks tid _
      (fun t _ => by norm_num) h
  | progress tid percent =>
    exact processingCapped_dbUpdate tasks tid _
      (fun t _ => min_le_right percent 99) h
  | complete tid audioFile fileSize duration now =>
    exact processingCapped_dbUpdate tasks tid _
      (fun t hs => by simp at hs) h
  | fail tid error now =>
    exact processingCapped_dbUpdate tasks tid _
      (fun t hs => by simp at hs) h

/-- C6 counterexample: `update_progress` has neither a status guard nor a
lower clamp — it rewrites the progress of a still-`pending` task, and it
stores a negative percent as-is, outside [0, 99]. -/
theorem C6_counterexample :
    ((findTask (update_progress [mkTask 1 none "a" .pending 0 0] 1 50)
        1).map Task.progress = some 50)
    ∧ ((findTask (update_progress [mkTask 1 none "a" .processing 10 0] 1
        (-5)) 1).map Task.progress = some (-5)) := by
  exact ⟨rfl, rfl⟩

/-- C6 (amended): `update_progress` applies to the matching row regardless of
its status and stores `min(percent, 99)` — values above 99 are clamped down,
negative values are stored unchanged.  Because every tracker operation that
makes a row `processing` gives it progress at most 99 and `update_progress`
never stores more than 99, the cap `processing → progress ≤ 99` is preserved
by every tracker call, so an observer still never sees progress 100 together
with status `processing`. -/
theorem C6_progress_clamp (tasks : List Task) (tid : Nat) (p : Int)
    (t : Task) (op : TrackerOp) (h : findTask tasks tid = some t)
    (hc : ProcessingCapped tasks) :
    findTask (update_progress tasks tid p) tid
      = some { t with progress := min p 99 }
    ∧ ProcessingCapped (applyTrackerOp tasks op)
    ∧ (∀ t' ∈ applyTrackerOp tasks op,
        t'.status = .processing → t'.progress ≠ 100) := by
  refine ⟨findTask_update_progress tasks tid p t h,
          processingCapped_step tasks op hc, ?_⟩
  intro t' ht' hs
  have h99 := processingCapped_step tasks op hc t' ht' hs
  omega

/-- C6 witness: the amended theorem applied to a concrete table and a
concrete `update_progress` call. -/
theorem C6_progress_clamp_witness :
    (findTask (update_progress [mkTask 1 none "ab" .processing 10 0] 1 150) 1
      = some { mkTask 1 none "ab" .processing 10 0 with progress := min 150 99 })
    ∧ ProcessingCapped
        (applyTrackerOp [mkTask 1 none "ab" .processing 10 0]
          (.progress 1 150))
    ∧ (∀ t' ∈ applyTrackerOp [mkTask 1 none "ab" .processing 10 0]
          (.progress 1 150),
        t'.status = .processing → t'.progress ≠ 100) :=
  C6_progress_clamp [mkTask 1 none "ab" .processing 10 0] 1 150
    (mkTask 1 none "ab" .processing 10 0) (.progress 1 150)
    (by decide) (by decide)

/-- C9 (confirmed): for a task found in the table and still `pending`, the
reported queue position is the number of pending tasks created strictly
before it plus the number of tasks currently `processing`; for a terminal
task the queue position is 0 and `get_status` returns the progress exactly
as stored. -/
theorem C9_queue_position (tasks : List Task) (tid : Nat) (t : Task)
    (h : findTask tasks tid = some t) :
    (t.status = .pending →
      get_queue_position tasks tid
        = tasks.countP
            (fun u => u.status = .pending ∧ u.createdAt < t.createdAt)
          + tasks.countP (fun u => u.status = .processing))
    ∧ ((t.status = .completed ∨ t.status = .failed) →
        get_queue_position tasks tid = 0
        ∧ (get_status tasks tid).progress = some t.progress) := by
  constructor
  · intro hp
    unfold get_queue_position
    rw [h]
    dsimp only
    have hcond : ¬(t.status = .processing ∨ t.status = .completed ∨
        t.status = .failed) := by
      rw [hp]
      rintro (hc | hc | hc) <;> exact Status.noConfusion hc
    rw [if_neg hcond]
    rw [List.countP_eq_length_filter, List.countP_eq_length_filter]
  · intro hterm
    have hcond : t.status = .processing ∨ t.status = .completed ∨
        t.status = .failed := by
      rcases hterm with hc | hc
      · exact Or.inr (Or.inl hc)
      · exact Or.inr (Or.inr hc)
    constructor
    · unfold get_queue_position
      rw [h]
      dsimp only
      rw [if_pos hcond]
    · unfold get_status
      rw [h]

/-- C9 witness: the theorem applied to a concrete table holding one pending,
one processing and one completed task. -/
theorem C9_queue_position_witness :
    ((mkTask 3 none "c" .pending 0 5).status = .pending →
      get_queue_position
          [mkTask 1 none "a" .pending 0 1, mkTask 2 none "b" .processing 50 2,
           mkTask 3 none "c" .pending 0 5] 3
        = [mkTask 1 none "a" .pending 0 1, mkTask 2 none "b" .processing 50 2,
           mkTask 3 none "c" .pending 0 5].countP
            (fun u => u.status = .pending ∧ u.createdAt < 5)
          + [mkTask 1 none "a" .pending 0 1,
             mkTask 2 none "b" .processing 50 2,
             mkTask 3 none "c" .pending 0 5].countP
              (fun u => u.status = .processing))
    ∧ (((mkTask 3 none "c" .pending 0 5).status = .completed ∨
        (mkTask 3 none "c" .pending 0 5).status = .failed) →
        get_queue_position
            [mkTask 1 none "a" .pending 0 1,
             mkTask 2 none "b" .processing 50 2,
             mkTask 3 none "c" .pending 0 5] 3 = 0
        ∧ (get_status
            [mkTask 1 none "a" .pending 0 1,
             mkTask 2 none "b" .processing 50 2,
             mkTask 3 none "c" .pending 0 5] 3).progress = some 0) :=
  C9_queue_position
    [mkTask 1 none "a" .pending 0 1, mkTask 2 none "b" .processing 50 2,
     mkTask 3 none "c" .pending 0 5] 3 (mkTask 3 none "c" .pending 0 5)
    (by decide)

theorem ledgerSum_append (l1 l2 : List CreditTransaction) (uid : Nat) :
    ledgerSum (l1 ++ l2) uid = ledgerSum l1 uid + ledgerSum l2 uid := by
  unfold ledgerSum
  rw [List.filter_append, List.map_append, List.sum_append]

theorem applyLedgerOp_id (st : User × List CreditTransaction)
    (op : LedgerOp) : (applyLedgerOp st op).1.id = st.1.id := by
  cases op with
  | adminAdd a => rfl
  | usageDebit a =>
    show (st.1.deduct_credits a).2.id = st.1.id
    unfold User.deduct_credits
    split <;> rfl

theorem ledger_replay_aux (B0 : Int) (uid : Nat)
    (st : User × List CreditTransaction) (ops : List LedgerOp)
    (hid : st.1.id = uid)
    (base : ledgerSum st.2 uid = st.1.credits - B0)
    (h : debitsCovered st ops) :
    ledgerSum (applyLedgerOps st ops).2 uid
      = (applyLedgerOps st ops).1.credits - B0 := by
  induction ops generalizing st with
  | nil => simpa [applyLedgerOps] using base
  | cons op rest ih =>
    obtain ⟨hop, hrest⟩ := h
    have hstep : applyLedgerOps st (op :: rest)
        = applyLedgerOps (applyLedgerOp st op) rest := rfl
    rw [hstep]
    apply ih (applyLedgerOp st op) ((applyLedgerOp_id st op).trans hid) ?_ hrest
    cases op with
    | adminAdd a =>
      show ledgerSum (st.2 ++ [_]) uid = _
      rw [ledgerSum_append]
      have hsingle : ledgerSum
          [{ userId := st.1.id, amount := a, transactionType := .bonus,
             balanceAfter := (st.1.add_credits a).credits }] uid = a := by
        simp [ledgerSum, hid]
      rw [hsingle, base]
      show st.1.credits - B0 + a = (st.1.add_credits a).credits - B0
      unfold User.add_credits
      ring_nf
    | usageDebit a =>
      have hsucc : (st.1.deduct_credits a).2
          = { st.1 with credits := st.1.credits - a } := by
        unfold User.deduct_credits
        rw [if_pos hop]
      show ledgerSum (st.2 ++ [_]) uid = _
      rw [ledgerSum_append]
      have hsingle : ledgerSum
          [{ userId := st.1.id, amount := -a, transactionType := .usage,
             balanceAfter := (st.1.deduct_credits a).2.credits }] uid
          = -a := by
        simp [ledgerSum, hid]
      rw [hsingle, base]
      show st.1.credits - B0 + -a = (st.1.deduct_credits a).2.credits - B0
      rw [hsucc]
      show st.1.credits - B0 + -a = st.1.credits - a - B0
      ring_nf

/-- C3 counterexample: account creation grants the free-trial balance (1000
by default) without writing any ledger row, so immediately after creation the
sum of the account's ledger amounts (0) differs from its balance (1000). -/
theorem C3_counterexample :
    ledgerSum (createAccount 1000 7).2 7 = 0
    ∧ (createAccount 1000 7).1.credits = 1000
    ∧ (0 : Int) ≠ 1000 := by
  exact ⟨rfl, rfl, by decide⟩

/-- C3 (amended): replaying the ledger reproduces the balance only relative
to the initial free-trial grant (which has no ledger row): starting from a
freshly created account with initial balance `B0`, after any sequence of
ledger-paired operations in which every usage debit is covered by the balance
at its turn, the sum of the account's ledger amounts equals the current
balance minus `B0`. -/
theorem C3_ledger_replay (B0 : Int) (uid : Nat) (ops : List LedgerOp)
    (h : debitsCovered (createAccount B0 uid) ops) :
    ledgerSum (applyLedgerOps (createAccount B0 uid) ops).2 uid
      = (applyLedgerOps (createAccount B0 uid) ops).1.credits - B0 := by
  apply ledger_replay_aux B0 uid (createAccount B0 uid) ops rfl ?_ h
  show ledgerSum [] uid = B0 - B0
  rw [sub_self]
  rfl

/-- C3 witness: the amended theorem applied to a concrete account history
(admin bonus of 50 then a covered usage debit of 30). -/
theorem C3_ledger_replay_witness :
    ledgerSum (applyLedgerOps (createAccount 1000 7)
        [LedgerOp.adminAdd 50, LedgerOp.usageDebit 30]).2 7
      = (applyLedgerOps (createAccount 1000 7)
          [LedgerOp.adminAdd 50, LedgerOp.usageDebit 30]).1.credits - 1000 :=
  C3_ledger_replay 1000 7 [LedgerOp.adminAdd 50, LedgerOp.usageDebit 30]
    (by decide)

theorem findTask_worker_ok (tasks : List Task) (tid : Nat) (path : String)
    (fs d n1 n2 : Nat) (t : Task) (h : findTask tasks tid = some t) :
    findTask (mark_completed (update_progress (update_progress
        (start_processing tasks tid n1) tid 20) tid 80) tid path fs d n2) tid
      = some { t with status := .completed, startedAt := some n1,
                      progress := 100, completedAt := some n2,
                      audioFile := some path, fileSize := fs,
                      duration := d } := by
  rw [findTask_mark_completed _ _ _ _ _ _ _
    (findTask_update_progress _ _ _ _
      (findTask_update_progress _ _ _ _
        (findTask_start_processing _ _ _ _ h)))]

theorem findTask_worker_err (tasks : List Task) (tid : Nat) (e : String)
    (n1 n2 : Nat) (t : Task) (h : findTask tasks tid = some t) :
    findTask (mark_failed (update_progress (update_progress
        (start_processing tasks tid n1) tid 20) tid 80) tid e n2) tid
      = some { t with status := .failed, startedAt := some n1,
                      progress := min 80 99, completedAt := some n2,
                      errorMessage := e } := by
  rw [findTask_mark_failed _ _ _ _ _
    (findTask_update_progress _ _ _ _
      (findTask_update_progress _ _ _ _
        (findTask_start_processing _ _ _ _ h)))]

/-- C1 counterexample: the completion path has no idempotency guard, so
re-running it for the same completed task debits again and appends a second
`usage` ledger row: one run leaves exactly one `usage` entry, a retry leaves
two. -/
theorem C1_counterexample :
    usageCount (generate_in_background
        { tasks := [mkTask 1 (some 7) "ab" .pending 0 0],
          users := [{ id := 7, credits := 1000 }],
          transactions := [], notifications := [] }
        1 (.ok 10 3) 2 (some 7) "a.wav" 1 2).transactions 7 = 1
    ∧ usageCount (generate_in_background (generate_in_background
        { tasks := [mkTask 1 (some 7) "ab" .pending 0 0],
          users := [{ id := 7, credits := 1000 }],
          transactions := [], notifications := [] }
        1 (.ok 10 3) 2 (some 7) "a.wav" 1 2)
        1 (.ok 10 3) 2 (some 7) "a.wav" 3 4).transactions 7 = 2 := by
  exact ⟨rfl, rfl⟩

/-- C1 (amended): each single run of the completion path for a task with an
owning, resolvable account appends exactly one `usage` ledger row, whose
(absolute) amount equals the `credits` passed to the worker; when that equals
the task's stored `credits_used` (as it does under a credit rate of 1, since
`generate_speech` passes `len(text) * CREDITS_PER_CHARACTER` and
`create_task` stores `credits_used = len(text)`), the entry matches the
claim — but the path is not idempotent: a retry appends a second entry and
debits again. -/
theorem C1_usage_entry (db : DB) (tid : Nat) (t : Task) (uid : Nat)
    (u : User) (fs d n1 n2 : Nat) (path : String) (credits : Nat)
    (htask : findTask db.tasks tid = some t)
    (hcred : credits = t.creditsUsed)
    (huser : findUser db.users uid = some u) :
    (generate_in_background db tid (.ok fs d) credits (some uid) path
        n1 n2).transactions
      = db.transactions
        ++ [{ userId := uid, amount := -(t.creditsUsed : Int),
              transactionType := .usage,
              balanceAfter :=
                ((u.deduct_credits (t.creditsUsed : Int)).2).credits }]
    ∧ (findTask (generate_in_background db tid (.ok fs d) credits (some uid)
        path n1 n2).tasks tid).map Task.status = some .completed := by
  subst hcred
  constructor
  · unfold generate_in_background
    dsimp only
    rw [huser]
  · unfold generate_in_background
    dsimp only
    rw [huser]
    show (findTask (mark_completed (update_progress (update_progress
        (start_processing db.tasks tid n1) tid 20) tid 80) tid path fs d
        n2) tid).map Task.status = some .completed
    rw [findTask_worker_ok db.tasks tid path fs d n1 n2 t htask]
    rfl

/-- C1 witness: the amended theorem applied to a concrete task, owner and
successful synthesis result. -/
theorem C1_usage_entry_witness :
    (generate_in_background
        { tasks := [mkTask 1 (some 7) "ab" .pending 0 0],
          users := [{ id := 7, credits := 1000 }],
          transactions := [], notifications := [] }
        1 (.ok 10 3) 2 (some 7) "a.wav" 1 2).transactions
      = [] ++ [{ userId := 7, amount := -((2 : Nat) : Int),
                 transactionType := .usage,
                 balanceAfter :=
                   (({ id := 7, credits := 1000 } :
                      User).deduct_credits ((2 : Nat) : Int)).2.credits }]
    ∧ (findTask (generate_in_background
        { tasks := [mkTask 1 (some 7) "ab" .pending 0 0],
          users := [{ id := 7, credits := 1000 }],
          transactions := [], notifications := [] }
        1 (.ok 10 3) 2 (some 7) "a.wav" 1 2).tasks 1).map Task.status
        = some .completed :=
  C1_usage_entry
    { tasks := [mkTask 1 (some 7) "ab" .pending 0 0],
      users := [{ id := 7, credits := 1000 }],
      transactions := [], notifications := [] }
    1 (mkTask 1 (some 7) "ab" .pending 0 0) 7 { id := 7, credits := 1000 }
    10 3 1 2 "a.wav" 2 (by decide) (by decide) (by decide)

/-- C7 counterexample: the stored error text is the external service's error
string verbatim, so a failure result carrying an empty `error` string yields a
`failed` task whose stored error text is empty — the claim's "non-empty"
qualifier does not hold for every failure. -/
theorem C7_counterexample :
    ((findTask (generate_in_background
        { tasks := [mkTask 1 (some 7) "ab" .pending 0 0],
          users := [{ id := 7, credits := 1000 }],
          transactions := [], notifications := [] }
        1 (.err (some "")) 2 (some 7) "x" 1 2).tasks 1).map Task.status
      = some .failed)
    ∧ ((findTask (generate_in_background
        { tasks := [mkTask 1 (some 7) "ab" .pending 0 0],
          users := [{ id := 7, credits := 1000 }],
          transactions := [], notifications := [] }
        1 (.err (some "")) 2 (some 7) "x" 1 2).tasks 1).map
          Task.errorMessage = some "")
    ∧ ("" : String).length = 0 := by
  exact ⟨rfl, rfl, rfl⟩

/-- C7 (amended): whenever the synthesis call reports failure (error result
or exception), for a task whose owning account is resolvable the task
transitions to `failed` and stores the error string verbatim (`'Unknown
error'` when the result carries none — so the text is non-empty unless the
external service itself supplies an empty string), the owning account's user
rows are unchanged (balance untouched, no debit) and no ledger entry is
created.  (When the owner row is missing, the source's outer exception
handler instead overwrites the error text with the `User.DoesNotExist`
message — see `generate_in_background` — still with no debit and no ledger
entry.) -/
theorem C7_failure_no_charge (db : DB) (tid uid : Nat) (credits : Nat)
    (e : Option String) (path : String) (n1 n2 : Nat) (t : Task) (u : User)
    (htask : findTask db.tasks tid = some t)
    (huser : findUser db.users uid = some u) :
    ((findTask (generate_in_background db tid (.err e) credits (some uid)
        path n1 n2).tasks tid).map Task.status = some .failed)
    ∧ ((findTask (generate_in_background db tid (.err e) credits (some uid)
        path n1 n2).tasks tid).map Task.errorMessage
        = some (e.getD "Unknown error"))
    ∧ (generate_in_background db tid (.err e) credits (some uid) path
        n1 n2).users = db.users
    ∧ (generate_in_background db tid (.err e) credits (some uid) path
        n1 n2).transactions = db.transactions := by
  have hbase : generate_in_background db tid (.err e) credits (some uid)
      path n1 n2
      = { db with
          tasks := mark_failed (update_progress (update_progress
            (start_processing db.tasks tid n1) tid 20) tid 80) tid
            (e.getD "Unknown error") n2,
          notifications :=
            db.notifications ++ [⟨uid, "Voice Generation Failed"⟩] } := by
    unfold generate_in_background
    dsimp only
    rw [huser]
  have hchain := findTask_worker_err db.tasks tid (e.getD "Unknown error")
    n1 n2 t htask
  refine ⟨?_, ?_, ?_, ?_⟩
  · rw [hbase]
    show (findTask (mark_failed (update_progress (update_progress
        (start_processing db.tasks tid n1) tid 20) tid 80) tid
        (e.getD "Unknown error") n2) tid).map Task.status = some .failed
    rw [hchain]
    rfl
  · rw [hbase]
    show (findTask (mark_failed (update_progress (update_progress
        (start_processing db.tasks tid n1) tid 20) tid 80) tid
        (e.getD "Unknown error") n2) tid).map Task.errorMessage
        = some (e.getD "Unknown error")
    rw [hchain]
    rfl
  · rw [hbase]
  · rw [hbase]

/-- C7 witness: the amended theorem applied to a concrete timeout-style
failure. -/
theorem C7_failure_no_charge_witness :
    ((findTask (generate_in_background
        { tasks := [mkTask 1 (some 7) "ab" .pending 0 0],
          users := [{ id := 7, credits := 1000 }],
          transactions := [], notifications := [] }
        1 (.err (some "API request timed out after 30 seconds")) 2 (some 7)
        "x" 1 2).tasks 1).map Task.status = some .failed)
    ∧ ((findTask (generate_in_background
        { tasks := [mkTask 1 (some 7) "ab" .pending 0 0],
          users := [{ id := 7, credits := 1000 }],
          transactions := [], notifications := [] }
        1 (.err (some "API request timed out after 30 seconds")) 2 (some 7)
        "x" 1 2).tasks 1).map Task.errorMessage
        = some ((some "API request timed out after 30 seconds").getD
            "Unknown error"))
    ∧ (generate_in_background
        { tasks := [mkTask 1 (some 7) "ab" .pending 0 0],
          users := [{ id := 7, credits := 1000 }],
          transactions := [], notifications := [] }
        1 (.err (some "API request timed out after 30 seconds")) 2 (some 7)
        "x" 1 2).users = [{ id := 7, credits := 1000 }]
    ∧ (generate_in_background
        { tasks := [mkTask 1 (some 7) "ab" .pending 0 0],
          users := [{ id := 7, credits := 1000 }],
          transactions := [], notifications := [] }
        1 (.err (some "API request timed out after 30 seconds")) 2 (some 7)
        "x" 1 2).transactions = [] :=
  C7_failure_no_charge
    { tasks := [mkTask 1 (some 7) "ab" .pending 0 0],
      users := [{ id := 7, credits := 1000 }],
      transactions := [], notifications := [] }
    1 7 2 (some "API request timed out after 30 seconds") "x" 1 2
    (mkTask 1 (some 7) "ab" .pending 0 0) { id := 7, credits := 1000 }
    (by decide) (by decide)

/-- C8 counterexample: with the reference audio missing *and* the balance
insufficient, `generate_speech` answers `insufficient credits` — the balance
check runs before the voice-reference check, contradicting the claimed order
(voice reference at step 2, balance at step 4). -/
theorem C8_counterexample :
    (generate_speech
        { MAX_TEXT_LENGTH := 1000, CREDITS_PER_CHARACTER := 1,
          serviceAvailable := true }
        { tasks := [], users := [], transactions := [], notifications := [] }
        (some { id := 7, credits := 0 }) "ab" false 1 0).1
      = .insufficientCredits
    ∧ SubmitResult.insufficientCredits ≠ SubmitResult.referenceAudioRequired
    := by
  exact ⟨rfl, by decide⟩

/-- C8 (amended): for an authenticated submission the fail-fast order
actually implemented is: (1) text non-empty, (2) text within the maximum
length, (3) `credits_needed = len(text) * CREDITS_PER_CHARACTER` computed and
checked against the balance, (4) reference audio present — the balance check
precedes the voice-reference check.  On every rejection, the
insufficient-credits one included, the database is returned unchanged: no
task row is created. -/
theorem C8_validation_order (s : Settings) (db : DB) (u : User)
    (text : String) (hasRef : Bool) (newId now : Nat)
    (hs : s.serviceAvailable = true) :
    (text = "" →
      generate_speech s db (some u) text hasRef newId now
        = (.textRequired, db))
    ∧ (text ≠ "" → text.length > s.MAX_TEXT_LENGTH →
        generate_speech s db (some u) text hasRef newId now
          = (.textTooLong, db))
    ∧ (text ≠ "" → text.length ≤ s.MAX_TEXT_LENGTH →
        u.credits < ((text.length * s.CREDITS_PER_CHARACTER : Nat) : Int) →
        generate_speech s db (some u) text hasRef newId now
          = (.insufficientCredits, db))
    ∧ (text ≠ "" → text.length ≤ s.MAX_TEXT_LENGTH →
        ¬ u.credits < ((text.length * s.CREDITS_PER_CHARACTER : Nat) : Int) →
        hasRef = false →
        generate_speech s db (some u) text hasRef newId now
          = (.referenceAudioRequired, db))
    ∧ (text ≠ "" → text.length ≤ s.MAX_TEXT_LENGTH →
        ¬ u.credits < ((text.length * s.CREDITS_PER_CHARACTER : Nat) : Int) →
        hasRef = true →
        generate_speech s db (some u) text hasRef newId now
          = (.ok newId (text.length * s.CREDITS_PER_CHARACTER),
             { db with tasks :=
                (create_task db.tasks (some u.id) text newId now).1 })) := by
  have hsvc : ¬(s.serviceAvailable = false) := by rw [hs]; decide
  have htf : ¬(true = false) := by decide
  refine ⟨?_, ?_, ?_, ?_, ?_⟩
  · intro h1
    unfold generate_speech
    rw [if_neg hsvc, if_pos h1]
  · intro h1 h2
    unfold generate_speech
    rw [if_neg hsvc, if_neg h1, if_pos h2]
  · intro h1 h2 h3
    have h3p : insufficientFor (some u)
        (text.length * s.CREDITS_PER_CHARACTER) := h3
    unfold generate_speech
    rw [if_neg hsvc, if_neg h1, if_neg (Nat.not_lt.mpr h2)]
    dsimp only
    rw [if_pos h3p]
  · intro h1 h2 h3 h4
    have h3n : ¬ insufficientFor (some u)
        (text.length * s.CREDITS_PER_CHARACTER) := h3
    unfold generate_speech
    rw [if_neg hsvc, if_neg h1, if_neg (Nat.not_lt.mpr h2)]
    dsimp only
    rw [if_neg h3n, h4]
    rw [if_pos rfl]
  · intro h1 h2 h3 h4
    have h3n : ¬ insufficientFor (some u)
        (text.length * s.CREDITS_PER_CHARACTER) := h3
    unfold generate_speech
    rw [if_neg hsvc, if_neg h1, if_neg (Nat.not_lt.mpr h2)]
    dsimp only
    rw [if_neg h3n, h4, if_neg htf]
    rfl

/-- C8 witness: the amended theorem applied at a concrete configuration and
account. -/
theorem C8_validation_order_witness :
    (("ab" : String) = "" →
      generate_speech
          { MAX_TEXT_LENGTH := 1000, CREDITS_PER_CHARACTER := 1,
            serviceAvailable := true }
          { tasks := [], users := [], transactions := [],
            notifications := [] }
          (some { id := 7, credits := 0 }) "ab" false 1 0
        = (.textRequired,
           { tasks := [], users := [], transactions := [],
             notifications := [] }))
    ∧ (("ab" : String) ≠ "" → ("ab" : String).length > 1000 →
        generate_speech
            { MAX_TEXT_LENGTH := 1000, CREDITS_PER_CHARACTER := 1,
              serviceAvailable := true }
            { tasks := [], users := [], transactions := [],
              notifications := [] }
            (some { id := 7, credits := 0 }) "ab" false 1 0
          = (.textTooLong,
             { tasks := [], users := [], transactions := [],
               notifications := [] }))
    ∧ (("ab" : String) ≠ "" → ("ab" : String).length ≤ 1000 →
        ({ id := 7, credits := 0 } : User).credits
            < ((("ab" : String).length * 1 : Nat) : Int) →
        generate_speech
            { MAX_TEXT_LENGTH := 1000, CREDITS_PER_CHARACTER := 1,
              serviceAvailable := true }
            { tasks := [], users := [], transactions := [],
              notifications := [] }
            (some { id := 7, credits := 0 }) "ab" false 1 0
          = (.insufficientCredits,
             { tasks := [], users := [], transactions := [],
               notifications := [] }))
    ∧ (("ab" : String) ≠ "" → ("ab" : String).length ≤ 1000 →
        ¬ ({ id := 7, credits := 0 } : User).credits
            < ((("ab" : String).length * 1 : Nat) : Int) →
        false = false →
        generate_speech
            { MAX_TEXT_LENGTH := 1000, CREDITS_PER_CHARACTER := 1,
              serviceAvailable := true }
            { tasks := [], users := [], transactions := [],
              notifications := [] }
            (some { id := 7, credits := 0 }) "ab" false 1 0
          = (.referenceAudioRequired,
             { tasks := [], users := [], transactions := [],
               notifications := [] }))
    ∧ (("ab" : String) ≠ "" → ("ab" : String).length ≤ 1000 →
        ¬ ({ id := 7, credits := 0 } : User).credits
            < ((("ab" : String).length * 1 : Nat) : Int) →
        false = true →
        generate_speech
            { MAX_TEXT_LENGTH := 1000, CREDITS_PER_CHARACTER := 1,
              serviceAvailable := true }
            { tasks := [], users := [], transactions := [],
              notifications := [] }
            (some { id := 7, credits := 0 }) "ab" false 1 0
          = (.ok 1 (("ab" : String).length * 1),
             { tasks := (create_task [] (some 7) "ab" 1 0).1, users := [],
               transactions := [], notifications := [] })) :=
  C8_validation_order
    { MAX_TEXT_LENGTH := 1000, CREDITS_PER_CHARACTER := 1,
      serviceAvailable := true }
    { tasks := [], users := [], transactions := [], notifications := [] }
    { id := 7, credits := 0 } "ab" false 1 0 (by decide)

/-- C10 (confirmed): for an anonymous submission (`request.user` not
authenticated, so `user = None`) the credit check `user and user.credits <
credits` short-circuits — any non-empty text within the length limit with a
reference audio is accepted regardless of the required credits — and the
completion path guarded by `if user_id:` leaves users, ledger and
notifications untouched. -/
theorem C10_anonymous_flow (s : Settings) (db : DB) (text : String)
    (newId now tid credits n1 n2 fs d : Nat) (path : String)
    (hs : s.serviceAvailable = true) (htext : text ≠ "")
    (hlen : text.length ≤ s.MAX_TEXT_LENGTH) :
    (generate_speech s db none text true newId now).1
      = .ok newId (text.length * s.CREDITS_PER_CHARACTER)
    ∧ (generate_in_background db tid (.ok fs d) credits none path
        n1 n2).users = db.users
    ∧ (generate_in_background db tid (.ok fs d) credits none path
        n1 n2).transactions = db.transactions
    ∧ (generate_in_background db tid (.ok fs d) credits none path
        n1 n2).notifications = db.notifications := by
  refine ⟨?_, rfl, rfl, rfl⟩
  have hsvc : ¬(s.serviceAvailable = false) := by rw [hs]; decide
  have htf : ¬(true = false) := by decide
  have hins : ¬ insufficientFor none
      (text.length * s.CREDITS_PER_CHARACTER) := fun h => h
  unfold generate_speech
  rw [if_neg hsvc, if_neg htext, if_neg (Nat.not_lt.mpr hlen)]
  dsimp only
  rw [if_neg hins, if_neg htf]
  rfl

/-- C10 witness: the theorem applied to a concrete anonymous submission whose
credit cost (300) far exceeds any balance check — accepted anyway — and a
concrete anonymous completion. -/
theorem C10_anonymous_flow_witness :
    (generate_speech
        { MAX_TEXT_LENGTH := 1000, CREDITS_PER_CHARACTER := 100,
          serviceAvailable := true }
        { tasks := [], users := [], transactions := [], notifications := [] }
        none "abc" true 1 0).1 = .ok 1 (("abc" : String).length * 100)
    ∧ (generate_in_background
        { tasks := [mkTask 1 none "abc" .pending 0 0], users := [],
          transactions := [], notifications := [] }
        1 (.ok 9 4) 300 none "a.wav" 1 2).users = []
    ∧ (generate_in_background
        { tasks := [mkTask 1 none "abc" .pending 0 0], users := [],
          transactions := [], notifications := [] }
        1 (.ok 9 4) 300 none "a.wav" 1 2).transactions = []
    ∧ (generate_in_background
        { tasks := [mkTask 1 none "abc" .pending 0 0], users := [],
          transactions := [], notifications := [] }
        1 (.ok 9 4) 300 none "a.wav" 1 2).notifications = [] :=
  C10_anonymous_flow
    { MAX_TEXT_LENGTH := 1000, CREDITS_PER_CHARACTER := 100,
      serviceAvailable := true }
    { tasks := [mkTask 1 none "abc" .pending 0 0], users := [],
      transactions := [], notifications := [] }
    "abc" 1 0 1 300 1 2 9 4 "a.wav" (by decide) (by decide) (by decide)

end TalkStudio
